import Mathlib

/-!
Formal model of the deep-research streaming orchestrator.

The embedding follows the repository source:
  - src/main.py            : the streaming endpoint and its event generator
  - src/agents/planner.py  : PlannerAgent.plan post-processing of the LLM reply
  - src/utils.py           : retry_with_backoff

External collaborator calls (the planner LLM call, the searcher's source
lookup and full research call, the final synthesis call) are modelled as
oracles: a `Collaborators` record fixes, for one request, the outcome of
each call the generator makes, keyed by the 1-based sub-question index for
the per-sub-question calls. Python exceptions are modelled as `Except`
errors carrying the exception text; `list(set(xs))` is modelled as
`xs.dedup` (same underlying set, `len(set(xs)) = xs.dedup.length`), since
the events only use the set and its cardinality.
-/

namespace DeepResearch

/-- One SSE event of the stream, as built by send_event in
src/main.py: the constructor is the JSON type discriminator and the
arguments are the type-specific fields. -/
inductive Event where
  | progress (message : String)
  | plan (sub_questions : List String) (reasoning : String) (total : Nat)
  | question (index : Nat) (question : String) (total : Nat)
  | sources (index : Nat) (sources : List String)
  | answer (index : Nat) (answer : String)
  | all_sources (sources : List String) (total : Nat)
  | final (answer : String)
  | complete (total_sub_questions : Nat)
  | error (message : String)
  deriving DecidableEq

/-- The JSON type discriminator of an event. -/
def Event.typeName : Event → String
  | .progress _ => "progress"
  | .plan _ _ _ => "plan"
  | .question _ _ _ => "question"
  | .sources _ _ => "sources"
  | .answer _ _ => "answer"
  | .all_sources _ _ => "all_sources"
  | .final _ => "final"
  | .complete _ => "complete"
  | .error _ => "error"

/-- A terminal event ends the stream: complete or error. -/
def isTerminal (e : Event) : Bool :=
  e.typeName = "complete" || e.typeName = "error"

/-- ResearchPlan from src/agents/planner.py. -/
structure ResearchPlan where
  original_query : String
  sub_questions : List String
  reasoning : String
  deriving DecidableEq

/-- One entry of the sub_results accumulator in event_generator
(src/main.py): the success path appends a dict without an index key, the
failure path one with it, hence the optional index field. -/
structure SubQuestionResult where
  index : Option Nat
  question : String
  answer : String
  sources : List String
  deriving DecidableEq

/-- Oracle for the external calls one run of event_generator makes:
the planner call, and, keyed by the 1-based sub-question index, the
source lookup and the full research call, and the final synthesis call.
`Except.error e` means the Python call raised with text e. -/
structure Collaborators where
  planOut : Except String ResearchPlan
  getSourcesOut : Nat → Except String (List String)
  researchOut : Nat → Except String (String × String × List String)
  synthOut : Except String String

/-- One iteration of the research loop of event_generator
(src/main.py lines 204-262): emits the question event, then runs the
try block (source lookup, sources event, full research, answer event,
append to sub_results and all_links) with the except branch appending an
error-marker result. Returns (events, appended result, links added to
all_links). -/
def stepSub (c : Collaborators) (total idx : Nat) (sub_q : String) :
    List Event × SubQuestionResult × List String :=
  match c.getSourcesOut idx with
  | .error e =>
      ([.question idx sub_q total, .answer idx ("Error: " ++ e)],
       { index := some idx, question := sub_q, answer := "Error: " ++ e, sources := [] },
       [])
  | .ok links =>
      match c.researchOut idx with
      | .error e =>
          ([.question idx sub_q total, .sources idx links, .answer idx ("Error: " ++ e)],
           { index := some idx, question := sub_q, answer := "Error: " ++ e, sources := [] },
           [])
      | .ok r =>
          ([.question idx sub_q total, .sources idx links, .answer idx r.1],
           { index := none, question := sub_q, answer := r.1, sources := links },
           links)

/-- The research loop over the remaining sub-questions, idx being the
1-based index of the first one (the enumerate(plan.sub_questions, 1) of
src/main.py). Returns the emitted events, the sub_results accumulator and
the all_links accumulator, in loop order. -/
def runSubs (c : Collaborators) (total : Nat) :
    Nat → List String → List Event × List SubQuestionResult × List String
  | _, [] => ([], [], [])
  | idx, q :: qs =>
      let s := stepSub c total idx q
      let r := runSubs c total (idx + 1) qs
      (s.1 ++ r.1, s.2.1 :: r.2.1, s.2.2 ++ r.2.2)

/-- The synthesis stage of event_generator (src/main.py lines 278-319):
a raised synthesis call or empty content yields a terminal error event,
otherwise the final event then the complete event. -/
def synthesisEvents (c : Collaborators) (total : Nat) : List Event :=
  match c.synthOut with
  | .error e => [.error ("Synthesis failed: " ++ e)]
  | .ok s =>
      if s = "" then [.error "Synthesis failed: Empty response from synthesizer"]
      else [.final s, .complete total]

/-- Everything event_generator does after a successful planner call
(src/main.py lines 190-319): the plan event is prepended by the caller;
here the research loop runs, then the empty-accumulator check, then the
all_sources event over the deduplicated all_links, the synthesis progress
event and the synthesis stage. -/
def afterPlan (c : Collaborators) (p : ResearchPlan) : List Event :=
  let total := p.sub_questions.length
  let r := runSubs c total 1 p.sub_questions
  if r.2.1 = [] then r.1 ++ [.error "No results to synthesize"]
  else
    r.1 ++
      Event.all_sources r.2.2.dedup r.2.2.dedup.length ::
        Event.progress "Synthesizing final answer..." :: synthesisEvents c total

/-- event_generator of src/main.py (lines 173-322): the full event stream
of one request, as a function of the collaborator outcomes. -/
def event_generator (c : Collaborators) : List Event :=
  Event.progress "Planning research strategy..." ::
    match c.planOut with
    | .error e => [Event.error ("Planning failed: " ++ e)]
    | .ok p =>
        Event.plan p.sub_questions p.reasoning p.sub_questions.length :: afterPlan c p

/-- Characters removed by Python str.strip() on ASCII input. -/
def isPySpace (ch : Char) : Bool :=
  ch = ' ' || ch = '\t' || ch = '\n' || ch = '\r' || ch = '\x0b' || ch = '\x0c'

/-- Python str.strip(): drop leading and trailing whitespace. -/
def pyStrip (s : List Char) : List Char :=
  ((s.dropWhile isPySpace).reverse.dropWhile isPySpace).reverse

/-- Validation of ResearchRequest.query (src/main.py lines 51-61):
pydantic first checks min_length=1 and max_length=1000 on the raw string,
then the field validator strips it and rejects a blank result. -/
def queryAccepted (s : List Char) : Prop :=
  1 ≤ s.length ∧ s.length ≤ 1000 ∧ pyStrip s ≠ []

instance (s : List Char) : Decidable (queryAccepted s) := by
  unfold queryAccepted; infer_instance

/-- The streaming endpoint (src/main.py lines 168-324): a request whose
query fails validation is rejected with 422 before the pipeline starts
(none); an accepted one streams the generator's events. -/
def research_stream (c : Collaborators) (raw : List Char) : Option (List Event) :=
  if queryAccepted raw then some (event_generator c) else none

/-- What the planner LLM call can come back with, as distinguished by
PlannerAgent.plan (src/agents/planner.py lines 53-77): a raised call,
empty content, content that is not JSON, or parsed JSON in which the
sub_questions and reasoning fields may each be present or absent. -/
structure ParsedPlanJson where
  sub_questions : Option (List String)
  reasoning : Option String
  deriving DecidableEq

inductive LLMPlanResponse where
  | failure (e : String)
  | emptyContent
  | invalidJson (e : String)
  | parsed (p : ParsedPlanJson)
  deriving DecidableEq

/-- One attempt of PlannerAgent.plan (src/agents/planner.py lines 26-82):
the query guards, then the handling of the LLM reply. Error strings carry
the exception text the code builds (quotes around field names elided). -/
def planOnce (query : String) (resp : LLMPlanResponse) : Except String ResearchPlan :=
  if pyStrip query.data = [] then .error "Query cannot be empty"
  else if 1000 < query.length then .error "Query too long (max 1000 characters)"
  else
    match resp with
    | .failure e => .error ("Failed to generate research plan: " ++ e)
    | .emptyContent => .error "Failed to generate research plan: Empty response from LLM"
    | .invalidJson e => .error ("Failed to parse LLM response as JSON: " ++ e)
    | .parsed p =>
        match p.sub_questions with
        | none => .error "Failed to generate research plan: LLM response missing sub_questions field"
        | some sq =>
            .ok { original_query := query, sub_questions := sq,
                  reasoning := p.reasoning.getD "No reasoning provided" }

/-- The loop body of retry_with_backoff (src/utils.py): attempt is the
0-based index of the next invocation, remaining the number of loop
iterations left out of max_retries; calls gives the outcome of the i-th
invocation of the wrapped function. Returns the wrapper's result
(ok none models Python falling off the loop and returning None) and the
number of invocations made so far counted from this attempt on. -/
def retryGo (calls : Nat → Except String α) (max_retries attempt : Nat) :
    Nat → Except String (Option α) × Nat
  | 0 => (.ok none, attempt)
  | remaining + 1 =>
      match calls attempt with
      | .ok a => (.ok (some a), attempt + 1)
      | .error e =>
          if attempt = max_retries - 1 then (.error e, attempt + 1)
          else retryGo calls max_retries (attempt + 1) remaining

/-- retry_with_backoff(max_retries)(func) applied once (src/utils.py):
runs `for attempt in range(max_retries)`. The second component is the
number of times func was invoked. -/
def retry_with_backoff (calls : Nat → Except String α) (max_retries : Nat) :
    Except String (Option α) × Nat :=
  retryGo calls max_retries 0 max_retries

/-- The 1-based positions idx, idx+1, ... of n consecutive sub-questions. -/
def idxFrom : Nat → Nat → List Nat
  | _, 0 => []
  | i, n + 1 => i :: idxFrom (i + 1) n

/-- Field projection of question events. -/
def questionDataOf : Event → Option (Nat × String × Nat)
  | .question i q t => some (i, q, t)
  | _ => none

/-- Index projection of answer events. -/
def answerIdxOf : Event → Option Nat
  | .answer i _ => some i
  | _ => none

/-- Field projection of sources events. -/
def sourcesDataOf : Event → Option (Nat × List String)
  | .sources i l => some (i, l)
  | _ => none

/-- Field projection of all_sources events. -/
def allSourcesDataOf : Event → Option (List String × Nat)
  | .all_sources l t => some (l, t)
  | _ => none

/-- Total-field projection of plan events. -/
def planTotalOf : Event → Option Nat
  | .plan _ _ t => some t
  | _ => none

/-- Field projection of complete events. -/
def completeTotalOf : Event → Option Nat
  | .complete t => some t
  | _ => none

/-- Field projection of final events. -/
def finalAnswerOf : Event → Option String
  | .final a => some a
  | _ => none

/-- Field projection of error events. -/
def errorMsgOf : Event → Option String
  | .error m => some m
  | _ => none

/-- The sources-event data the lookup at index i produces when it
succeeds, none when it raises. -/
def lookupPair (c : Collaborators) (i : Nat) : Option (Nat × List String) :=
  match c.getSourcesOut i with
  | .ok links => some (i, links)
  | .error _ => none

/-- The links index i contributes to all_links: its lookup links when
both its lookup and its full research call succeed, nothing otherwise. -/
def lookupLinksIfSuccess (c : Collaborators) (i : Nat) : List String :=
  match c.getSourcesOut i, c.researchOut i with
  | .ok links, .ok _ => links
  | _, _ => []

/-- A one-sub-question plan, for concrete runs. -/
def pOne : ResearchPlan :=
  { original_query := "q", sub_questions := ["sq1"], reasoning := "r" }

/-- A two-sub-question plan, for concrete runs. -/
def pTwo : ResearchPlan :=
  { original_query := "q", sub_questions := ["sq1", "sq2"], reasoning := "r" }

/-- A run in which the planner call raises. -/
def cPlanFail : Collaborators :=
  { planOut := .error "boom"
    getSourcesOut := fun _ => .ok []
    researchOut := fun _ => .ok ("", "", [])
    synthOut := .ok "synth" }

/-- A run with one sub-question whose source lookup raises. -/
def cLookupFail : Collaborators :=
  { planOut := .ok pOne
    getSourcesOut := fun _ => .error "search down"
    researchOut := fun _ => .ok ("ans", "ctx", ["https://x"])
    synthOut := .ok "synth" }

/-- A run with one sub-question whose source lookup succeeds with one link
but whose full research call raises. -/
def cResearchFail : Collaborators :=
  { planOut := .ok pOne
    getSourcesOut := fun _ => .ok ["https://a"]
    researchOut := fun _ => .error "rate limited"
    synthOut := .ok "synth" }

/-- A fully successful two-sub-question run. -/
def cTwoOk : Collaborators :=
  { planOut := .ok pTwo
    getSourcesOut := fun _ => .ok ["https://a"]
    researchOut := fun _ => .ok ("ans", "ctx", ["https://r"])
    synthOut := .ok "final answer" }

/-- A two-sub-question run where the first full research call raises and
everything else succeeds. -/
def cFirstFails : Collaborators :=
  { planOut := .ok pTwo
    getSourcesOut := fun _ => .ok ["https://a"]
    researchOut := fun i =>
      if i = 1 then .error "rate limited" else .ok ("ans2", "ctx", ["https://r"])
    synthOut := .ok "final answer" }

/-- A 1001-character raw query whose trimmed form has 1000 characters. -/
def badQuery : List Char := List.replicate 1000 'a' ++ [' ']

theorem stepSub_questionData (c : Collaborators) (total idx : Nat) (q : String) :
    (stepSub c total idx q).1.filterMap questionDataOf = [(idx, q, total)] := by
  cases hg : c.getSourcesOut idx with
  | error e => simp [stepSub, hg, questionDataOf]
  | ok links =>
      cases hr : c.researchOut idx with
      | error e => simp [stepSub, hg, hr, questionDataOf]
      | ok r => simp [stepSub, hg, hr, questionDataOf]

theorem stepSub_answerIdx (c : Collaborators) (total idx : Nat) (q : String) :
    (stepSub c total idx q).1.filterMap answerIdxOf = [idx] := by
  cases hg : c.getSourcesOut idx with
  | error e => simp [stepSub, hg, answerIdxOf]
  | ok links =>
      cases hr : c.researchOut idx with
      | error e => simp [stepSub, hg, hr, answerIdxOf]
      | ok r => simp [stepSub, hg, hr, answerIdxOf]

theorem stepSub_sourcesData (c : Collaborators) (total idx : Nat) (q : String) :
    (stepSub c total idx q).1.filterMap sourcesDataOf = (lookupPair c idx).toList := by
  cases hg : c.getSourcesOut idx with
  | error e => simp [stepSub, hg, sourcesDataOf, lookupPair]
  | ok links =>
      cases hr : c.researchOut idx with
      | error e => simp [stepSub, hg, hr, sourcesDataOf, lookupPair]
      | ok r => simp [stepSub, hg, hr, sourcesDataOf, lookupPair]

theorem stepSub_links (c : Collaborators) (total idx : Nat) (q : String) :
    (stepSub c total idx q).2.2 = lookupLinksIfSuccess c idx := by
  cases hg : c.getSourcesOut idx with
  | error e => simp [stepSub, hg, lookupLinksIfSuccess]
  | ok links =>
      cases hr : c.researchOut idx with
      | error e => simp [stepSub, hg, hr, lookupLinksIfSuccess]
      | ok r => simp [stepSub, hg, hr, lookupLinksIfSuccess]

theorem stepSub_result_sources (c : Collaborators) (total idx : Nat) (q : String) :
    (stepSub c total idx q).2.1.sources = lookupLinksIfSuccess c idx := by
  cases hg : c.getSourcesOut idx with
  | error e => simp [stepSub, hg, lookupLinksIfSuccess]
  | ok links =>
      cases hr : c.researchOut idx with
      | error e => simp [stepSub, hg, hr, lookupLinksIfSuccess]
      | ok r => simp [stepSub, hg, hr, lookupLinksIfSuccess]

theorem stepSub_typeNames (c : Collaborators) (total idx : Nat) (q : String) :
    ∀ e ∈ (stepSub c total idx q).1,
      e.typeName = "question" ∨ e.typeName = "sources" ∨ e.typeName = "answer" := by
  cases hg : c.getSourcesOut idx with
  | error e =>
      intro ev hev
      simp [stepSub, hg] at hev
      rcases hev with h | h <;> subst h <;> simp [Event.typeName]
  | ok links =>
      cases hr : c.researchOut idx with
      | error e =>
          intro ev hev
          simp [stepSub, hg, hr] at hev
          rcases hev with h | h | h <;> subst h <;> simp [Event.typeName]
      | ok r =>
          intro ev hev
          simp [stepSub, hg, hr] at hev
          rcases hev with h | h | h <;> subst h <;> simp [Event.typeName]

theorem stepSub_count_question (c : Collaborators) (total idx : Nat) (q : String) :
    ((stepSub c total idx q).1.map Event.typeName).count "question" = 1 := by
  cases hg : c.getSourcesOut idx with
  | error e => simp [stepSub, hg, Event.typeName, List.count_cons]
  | ok links =>
      cases hr : c.researchOut idx with
      | error e => simp [stepSub, hg, hr, Event.typeName, List.count_cons]
      | ok r => simp [stepSub, hg, hr, Event.typeName, List.count_cons]

theorem runSubs_questionData (c : Collaborators) (total : Nat) (qs : List String) :
    ∀ idx, (runSubs c total idx qs).1.filterMap questionDataOf
      = List.zipWith (fun i q => (i, q, total)) (idxFrom idx qs.length) qs := by
  induction qs with
  | nil => intro idx; simp [runSubs, idxFrom]
  | cons q qs ih =>
      intro idx
      simp [runSubs, idxFrom, List.filterMap_append, stepSub_questionData, ih]

theorem runSubs_answerIdx (c : Collaborators) (total : Nat) (qs : List String) :
    ∀ idx, (runSubs c total idx qs).1.filterMap answerIdxOf = idxFrom idx qs.length := by
  induction qs with
  | nil => intro idx; simp [runSubs, idxFrom]
  | cons q qs ih =>
      intro idx
      simp [runSubs, idxFrom, List.filterMap_append, stepSub_answerIdx, ih]

theorem runSubs_sourcesData (c : Collaborators) (total : Nat) (qs : List String) :
    ∀ idx, (runSubs c total idx qs).1.filterMap sourcesDataOf
      = (idxFrom idx qs.length).filterMap (lookupPair c) := by
  induction qs with
  | nil => intro idx; simp [runSubs, idxFrom]
  | cons q qs ih =>
      intro idx
      simp only [List.length_cons, idxFrom]
      cases hl : lookupPair c idx with
      | none =>
          simp [runSubs, List.filterMap_append, stepSub_sourcesData, ih, hl,
            List.filterMap_cons]
      | some pr =>
          simp [runSubs, List.filterMap_append, stepSub_sourcesData, ih, hl,
            List.filterMap_cons]

theorem runSubs_links (c : Collaborators) (total : Nat) (qs : List String) :
    ∀ idx, (runSubs c total idx qs).2.2
      = (idxFrom idx qs.length).flatMap (lookupLinksIfSuccess c) := by
  induction qs with
  | nil => intro idx; simp [runSubs, idxFrom]
  | cons q qs ih =>
      intro idx
      simp [runSubs, idxFrom, stepSub_links, ih]

theorem runSubs_links_eq_results_bind (c : Collaborators) (total : Nat) (qs : List String) :
    ∀ idx, (runSubs c total idx qs).2.2
      = ((runSubs c total idx qs).2.1).flatMap SubQuestionResult.sources := by
  induction qs with
  | nil => intro idx; simp [runSubs]
  | cons q qs ih =>
      intro idx
      simp [runSubs, stepSub_links, stepSub_result_sources, ih]

theorem runSubs_results (c : Collaborators) (total : Nat) (qs : List String) :
    ∀ idx, (runSubs c total idx qs).2.1
      = List.zipWith (fun i q => (stepSub c total i q).2.1) (idxFrom idx qs.length) qs := by
  induction qs with
  | nil => intro idx; simp [runSubs, idxFrom]
  | cons q qs ih =>
      intro idx
      simp [runSubs, idxFrom, ih]

theorem runSubs_results_nil_iff (c : Collaborators) (total idx : Nat) (qs : List String) :
    (runSubs c total idx qs).2.1 = [] ↔ qs = [] := by
  cases qs with
  | nil => simp [runSubs]
  | cons q qs => simp [runSubs]

theorem runSubs_typeNames (c : Collaborators) (total : Nat) (qs : List String) :
    ∀ idx, ∀ e ∈ (runSubs c total idx qs).1,
      e.typeName = "question" ∨ e.typeName = "sources" ∨ e.typeName = "answer" := by
  induction qs with
  | nil => intro idx e he; simp [runSubs] at he
  | cons q qs ih =>
      intro idx e he
      simp [runSubs] at he
      rcases he with h | h
      · exact stepSub_typeNames c total idx q e h
      · exact ih (idx + 1) e h

theorem runSubs_count_question (c : Collaborators) (total : Nat) (qs : List String) :
    ∀ idx, ((runSubs c total idx qs).1.map Event.typeName).count "question" = qs.length := by
  induction qs with
  | nil => intro idx; simp [runSubs]
  | cons q qs ih =>
      intro idx
      simp [runSubs, List.count_append, stepSub_count_question, ih]
      omega

theorem event_generator_plan_error (c : Collaborators) (e : String)
    (h : c.planOut = .error e) :
    event_generator c =
      [Event.progress "Planning research strategy...",
       Event.error ("Planning failed: " ++ e)] := by
  simp [event_generator, h]

theorem event_generator_plan_ok (c : Collaborators) (p : ResearchPlan)
    (h : c.planOut = .ok p) :
    event_generator c =
      Event.progress "Planning research strategy..." ::
        Event.plan p.sub_questions p.reasoning p.sub_questions.length :: afterPlan c p := by
  simp [event_generator, h]

theorem afterPlan_of_nil (c : Collaborators) (p : ResearchPlan)
    (h : p.sub_questions = []) :
    afterPlan c p = [Event.error "No results to synthesize"] := by
  simp [afterPlan, h, runSubs]

theorem afterPlan_of_ne_nil (c : Collaborators) (p : ResearchPlan)
    (h : p.sub_questions ≠ []) :
    afterPlan c p =
      (runSubs c p.sub_questions.length 1 p.sub_questions).1 ++
        Event.all_sources
            ((runSubs c p.sub_questions.length 1 p.sub_questions).2.2).dedup
            ((runSubs c p.sub_questions.length 1 p.sub_questions).2.2).dedup.length ::
          Event.progress "Synthesizing final answer..." ::
            synthesisEvents c p.sub_questions.length := by
  have h2 : (runSubs c p.sub_questions.length 1 p.sub_questions).2.1 ≠ [] := by
    rw [Ne, runSubs_results_nil_iff]; exact h
  simp [afterPlan, h2]

theorem isTerminal_eq_false_of_typeName (e : Event)
    (h : e.typeName = "question" ∨ e.typeName = "sources" ∨ e.typeName = "answer") :
    isTerminal e = false := by
  rcases h with h | h | h <;> (unfold isTerminal; rw [h]; decide)

theorem loop_event_projections (e : Event)
    (h : e.typeName = "question" ∨ e.typeName = "sources" ∨ e.typeName = "answer") :
    allSourcesDataOf e = none ∧ planTotalOf e = none ∧ completeTotalOf e = none ∧
      finalAnswerOf e = none ∧ errorMsgOf e = none ∧ e.typeName ≠ "error" := by
  cases e <;>
    simp_all [Event.typeName, allSourcesDataOf, planTotalOf, completeTotalOf,
      finalAnswerOf, errorMsgOf]

theorem runSubs_filterMap_nil {β : Type} (f : Event → Option β)
    (hf : ∀ e, (e.typeName = "question" ∨ e.typeName = "sources" ∨ e.typeName = "answer") →
      f e = none)
    (c : Collaborators) (total idx : Nat) (qs : List String) :
    (runSubs c total idx qs).1.filterMap f = [] := by
  rw [List.filterMap_eq_nil_iff]
  intro e he
  exact hf e (runSubs_typeNames c total qs idx e he)

theorem idxFrom_length : ∀ (n i : Nat), (idxFrom i n).length = n := by
  intro n
  induction n with
  | zero => intro i; simp [idxFrom]
  | succ m ih => intro i; simp [idxFrom, ih]

theorem synthesisEvents_projections (c : Collaborators) (t : Nat) :
    ∀ e ∈ synthesisEvents c t,
      questionDataOf e = none ∧ answerIdxOf e = none ∧ sourcesDataOf e = none ∧
        allSourcesDataOf e = none := by
  intro e he
  unfold synthesisEvents at he
  cases hs : c.synthOut with
  | error er =>
      rw [hs] at he; simp at he; subst he; exact ⟨rfl, rfl, rfl, rfl⟩
  | ok s =>
      rw [hs] at he
      by_cases h0 : s = ""
      · simp [h0] at he; subst he; exact ⟨rfl, rfl, rfl, rfl⟩
      · simp [h0] at he
        rcases he with he | he <;> subst he <;> exact ⟨rfl, rfl, rfl, rfl⟩

theorem pyStrip_length_le (s : List Char) : (pyStrip s).length ≤ s.length := by
  unfold pyStrip
  calc ((s.dropWhile isPySpace).reverse.dropWhile isPySpace).reverse.length
      = ((s.dropWhile isPySpace).reverse.dropWhile isPySpace).length :=
        List.length_reverse _
    _ ≤ (s.dropWhile isPySpace).reverse.length :=
        (List.dropWhile_sublist _).length_le
    _ = (s.dropWhile isPySpace).length := List.length_reverse _
    _ ≤ s.length := (List.dropWhile_sublist _).length_le

theorem queryAccepted_iff (s : List Char) :
    queryAccepted s ↔ 1 ≤ (pyStrip s).length ∧ s.length ≤ 1000 := by
  unfold queryAccepted
  constructor
  · rintro ⟨h1, h2, h3⟩
    refine ⟨?_, h2⟩
    have : pyStrip s ≠ [] := h3
    cases hp : pyStrip s with
    | nil => exact absurd hp this
    | cons a l => simp [hp]
  · rintro ⟨h1, h2⟩
    refine ⟨?_, h2, ?_⟩
    · exact le_trans h1 (pyStrip_length_le s)
    · intro hnil
      rw [hnil] at h1
      simp at h1

theorem retryGo_count_le (calls : Nat → Except String α) (k : Nat) :
    ∀ remaining attempt, (retryGo calls k attempt remaining).2 ≤ attempt + remaining := by
  intro remaining
  induction remaining with
  | zero => intro attempt; simp [retryGo]
  | succ r ih =>
      intro attempt
      rw [retryGo]
      cases hc : calls attempt with
      | ok a => simp
      | error e =>
          by_cases h : attempt = k - 1
          · simp [h]
          · simp only [h, if_false]
            have := ih (attempt + 1)
            omega

theorem retryGo_all_error (calls : Nat → Except String α) (k : Nat) (es : Nat → String)
    (hall : ∀ i, i < k → calls i = .error (es i)) :
    ∀ remaining attempt, attempt + remaining = k → 1 ≤ remaining →
      retryGo calls k attempt remaining = (.error (es (k - 1)), k) := by
  intro remaining
  induction remaining with
  | zero => intro attempt _ h1; omega
  | succ r ih =>
      intro attempt hsum _
      rw [retryGo, hall attempt (by omega)]
      cases r with
      | zero =>
          have ha : attempt = k - 1 := by omega
          simp [ha]
          omega
      | succ r2 =>
          have ha : attempt ≠ k - 1 := by omega
          simp only [ha, if_false]
          exact ih (attempt + 1) (by omega) (by omega)

/-- C10: retry_with_backoff with max_retries = k invokes the wrapped
function at most k times; when every invocation raises, the last
invocation's exception propagates; with k = 0 the function is never
invoked and the wrapper returns None. -/
theorem C10_retry (calls : Nat → Except String α) (k : Nat) :
    (k = 0 → retry_with_backoff calls k = (.ok none, 0)) ∧
      (retry_with_backoff calls k).2 ≤ k ∧
      ∀ es : Nat → String, (∀ i, i < k → calls i = .error (es i)) → 1 ≤ k →
        retry_with_backoff calls k = (.error (es (k - 1)), k) := by
  refine ⟨?_, ?_, ?_⟩
  · intro h
    subst h
    rfl
  · have := retryGo_count_le calls k k 0
    simpa [retry_with_backoff] using this
  · intro es hall hk
    unfold retry_with_backoff
    exact retryGo_all_error calls k es hall k 0 (by omega) hk

theorem C10_retry_witness :
    retry_with_backoff (fun _ => (.error "boom" : Except String Nat)) 0 = (.ok none, 0) ∧
      (retry_with_backoff (fun _ => (.error "boom" : Except String Nat)) 3).2 ≤ 3 ∧
      retry_with_backoff (fun _ => (.error "boom" : Except String Nat)) 3
        = (.error "boom", 3) := by
  refine ⟨(C10_retry (fun _ => .error "boom") 0).1 rfl,
          (C10_retry (fun _ => .error "boom") 3).2.1, ?_⟩
  exact (C10_retry (fun _ => .error "boom") 3).2.2 (fun _ => "boom") (fun i _ => rfl)
    (by omega)

/-- C5 (amended): if the planner call raises, the stream is exactly the
initial progress event followed by a single terminal error event; in
particular exactly one error event occurs and no plan or question event
ever appears. The claim's "exactly one event" fails because the initial
progress event precedes the planner call. -/
theorem C5_planning_failure (c : Collaborators) (e : String)
    (h : c.planOut = .error e) :
    event_generator c =
      [Event.progress "Planning research strategy...",
       Event.error ("Planning failed: " ++ e)] := by
  simp [event_generator, h]

theorem C5_planning_failure_witness :
    event_generator cPlanFail =
      [Event.progress "Planning research strategy...",
       Event.error ("Planning failed: " ++ "boom")] :=
  C5_planning_failure cPlanFail "boom" rfl

/-- C5 counterexample: with a raising planner call the stream holds two
events, a progress then the error, so it does not consist of exactly one
event. -/
theorem C5_counterexample :
    (event_generator cPlanFail).map Event.typeName = ["progress", "error"] ∧
      (event_generator cPlanFail).length ≠ 1 := by
  constructor
  · rfl
  · decide

/-- C7 counterexample: PlannerAgent.plan succeeds on a parsed reply whose
sub_questions list is empty, so a successful plan need not be non-empty,
let alone hold 2 to 5 items. -/
theorem C7_counterexample :
    ¬ (∀ (q : String) (resp : LLMPlanResponse) (p : ResearchPlan),
        planOnce q resp = .ok p →
          p.sub_questions ≠ [] ∧
            2 ≤ p.sub_questions.length ∧ p.sub_questions.length ≤ 5) := by
  intro h
  have := h "valid query" (.parsed { sub_questions := some [], reasoning := none })
    { original_query := "valid query", sub_questions := [],
      reasoning := "No reasoning provided" } rfl
  exact this.1 rfl

/-- C7 (amended): when PlannerAgent.plan succeeds, the LLM reply was parsed
JSON containing a sub_questions field and the returned plan carries that
list verbatim and the original query; no size constraint on the list is
enforced. -/
theorem C7_plan_success_shape (q : String) (resp : LLMPlanResponse) (p : ResearchPlan)
    (h : planOnce q resp = .ok p) :
    ∃ pj, resp = .parsed pj ∧ pj.sub_questions = some p.sub_questions ∧
      p.original_query = q := by
  unfold planOnce at h
  by_cases h1 : pyStrip q.data = []
  · simp [h1] at h
  · rw [if_neg h1] at h
    by_cases h2 : 1000 < q.length
    · simp [h2] at h
    · rw [if_neg h2] at h
      cases resp with
      | failure e => simp at h
      | emptyContent => simp at h
      | invalidJson e => simp at h
      | parsed pj =>
          cases hsq : pj.sub_questions with
          | none => simp [hsq] at h
          | some sq =>
              simp only [hsq] at h
              have hp := (Except.ok.injEq _ _).mp h
              refine ⟨pj, rfl, ?_, ?_⟩
              · rw [hsq, ← hp]
              · rw [← hp]

theorem C7_plan_success_shape_witness :
    ∃ pj, LLMPlanResponse.parsed { sub_questions := some ["a", "b"], reasoning := some "r" }
        = .parsed pj ∧
      pj.sub_questions = some (ResearchPlan.mk "q" ["a", "b"] "r").sub_questions ∧
      (ResearchPlan.mk "q" ["a", "b"] "r").original_query = "q" :=
  C7_plan_success_shape "q"
    (.parsed { sub_questions := some ["a", "b"], reasoning := some "r" })
    (ResearchPlan.mk "q" ["a", "b"] "r") rfl

/-- C6 (amended): a request is accepted exactly when the raw query is at
most 1000 characters long and has a non-empty trimmed form; a rejected
query is turned away before the pipeline starts and the stream carries no
events. The claim's "trimmed length between 1 and 1000" fails because the
1000-character bound is checked on the untrimmed query. -/
theorem C6_validation (c : Collaborators) (s : List Char) :
    (research_stream c s = some (event_generator c) ↔
        1 ≤ (pyStrip s).length ∧ s.length ≤ 1000) ∧
      (research_stream c s = none ↔
        ¬ (1 ≤ (pyStrip s).length ∧ s.length ≤ 1000)) := by
  unfold research_stream
  by_cases h : queryAccepted s
  · rw [if_pos h]
    have := (queryAccepted_iff s).mp h
    simp [this]
  · rw [if_neg h]
    have : ¬ (1 ≤ (pyStrip s).length ∧ s.length ≤ 1000) := fun hc =>
      h ((queryAccepted_iff s).mpr hc)
    simp [this]

theorem C6_validation_witness :
    research_stream cTwoOk ['h', 'i'] = some (event_generator cTwoOk) := by
  have := (C6_validation cTwoOk ['h', 'i']).1
  exact this.mpr (by decide)

theorem terminal_shape (pre2 : List Event) (hpre : ∀ e ∈ pre2, isTerminal e = false)
    (c : Collaborators) (N : Nat) :
    ∃ pre last, (pre2 ++ synthesisEvents c N) = pre ++ [last] ∧ isTerminal last = true ∧
      ∀ e ∈ pre, isTerminal e = false := by
  cases hs : c.synthOut with
  | error er =>
      exact ⟨pre2, Event.error ("Synthesis failed: " ++ er),
        by simp [synthesisEvents, hs], rfl, hpre⟩
  | ok s =>
      by_cases h0 : s = ""
      · exact ⟨pre2, Event.error "Synthesis failed: Empty response from synthesizer",
          by simp [synthesisEvents, hs, h0], rfl, hpre⟩
      · refine ⟨pre2 ++ [Event.final s], Event.complete N, ?_, rfl, ?_⟩
        · simp [synthesisEvents, hs, h0]
        · intro e he
          rcases List.mem_append.mp he with h | h
          · exact hpre e h
          · simp at h; subst h; rfl

/-- C3: every completed run of the stream ends in exactly one terminal
event: the last event is a complete or error event and no earlier event of
the stream is terminal, so nothing is ever emitted after the first
complete or error event. -/
theorem C3_single_terminal (c : Collaborators) :
    ∃ pre last, event_generator c = pre ++ [last] ∧ isTerminal last = true ∧
      ∀ e ∈ pre, isTerminal e = false := by
  cases hp : c.planOut with
  | error er =>
      refine ⟨[Event.progress "Planning research strategy..."],
        Event.error ("Planning failed: " ++ er), ?_, rfl, ?_⟩
      · rw [event_generator_plan_error c er hp]; rfl
      · intro e he
        simp at he
        subst he
        rfl
  | ok p =>
      by_cases hq : p.sub_questions = []
      · refine ⟨[Event.progress "Planning research strategy...",
          Event.plan p.sub_questions p.reasoning p.sub_questions.length],
          Event.error "No results to synthesize", ?_, rfl, ?_⟩
        · rw [event_generator_plan_ok c p hp, afterPlan_of_nil c p hq]
          rfl
        · intro e he
          simp at he
          rcases he with he | he <;> subst he <;> rfl
      · have hdec := event_generator_plan_ok c p hp
        rw [afterPlan_of_ne_nil c p hq] at hdec
        have hpre2 : ∀ e ∈ Event.progress "Planning research strategy..." ::
            Event.plan p.sub_questions p.reasoning p.sub_questions.length ::
              ((runSubs c p.sub_questions.length 1 p.sub_questions).1 ++
                [Event.all_sources
                    ((runSubs c p.sub_questions.length 1 p.sub_questions).2.2).dedup
                    ((runSubs c p.sub_questions.length 1 p.sub_questions).2.2).dedup.length,
                  Event.progress "Synthesizing final answer..."]),
            isTerminal e = false := by
          intro e he
          simp only [List.mem_cons, List.mem_append] at he
          rcases he with he | he | he | he
          · subst he; rfl
          · subst he; rfl
          · exact isTerminal_eq_false_of_typeName e
              (runSubs_typeNames c p.sub_questions.length p.sub_questions 1 e he)
          · simp at he
            rcases he with he | he <;> subst he <;> rfl
        obtain ⟨pre, last, hsh, hterm, hpre⟩ := terminal_shape _ hpre2 c
          p.sub_questions.length
        refine ⟨pre, last, ?_, hterm, hpre⟩
        rw [hdec]
        rw [← hsh]
        simp only [List.cons_append, List.append_assoc, List.cons.injEq,
          List.append_cancel_left_eq, List.nil_append, true_and]

/-- C1: with a successful plan of at least one sub-question and a
successful non-empty synthesis, every failed research call is absorbed:
the stream holds no error event, still has its all_sources, final and
complete events, and one question event per planned sub-question. -/
theorem C1_partial_failure_absorbed (c : Collaborators) (p : ResearchPlan)
    (hplan : c.planOut = .ok p) (hne : p.sub_questions ≠ [])
    (hfail : ∃ j, j < p.sub_questions.length ∧ ∃ er, c.researchOut (j + 1) = .error er)
    (s : String) (hs : c.synthOut = .ok s) (hs0 : s ≠ "") :
    (event_generator c).filterMap errorMsgOf = [] ∧
      (event_generator c).filterMap allSourcesDataOf
        = [(((runSubs c p.sub_questions.length 1 p.sub_questions).2.2).dedup,
            ((runSubs c p.sub_questions.length 1 p.sub_questions).2.2).dedup.length)] ∧
      (event_generator c).filterMap finalAnswerOf = [s] ∧
      (event_generator c).filterMap completeTotalOf = [p.sub_questions.length] ∧
      ((event_generator c).filterMap questionDataOf).length = p.sub_questions.length := by
  have hdec := event_generator_plan_ok c p hplan
  rw [afterPlan_of_ne_nil c p hne] at hdec
  rw [hdec]
  simp only [synthesisEvents, hs, if_neg hs0]
  have hErr := runSubs_filterMap_nil errorMsgOf
    (fun e h => (loop_event_projections e h).2.2.2.2.1) c p.sub_questions.length 1
    p.sub_questions
  have hAS := runSubs_filterMap_nil allSourcesDataOf
    (fun e h => (loop_event_projections e h).1) c p.sub_questions.length 1 p.sub_questions
  have hFin := runSubs_filterMap_nil finalAnswerOf
    (fun e h => (loop_event_projections e h).2.2.2.1) c p.sub_questions.length 1
    p.sub_questions
  have hCmp := runSubs_filterMap_nil completeTotalOf
    (fun e h => (loop_event_projections e h).2.2.1) c p.sub_questions.length 1
    p.sub_questions
  have hQ := runSubs_questionData c p.sub_questions.length p.sub_questions 1
  refine ⟨?_, ?_, ?_, ?_, ?_⟩ <;>
    simp [List.filterMap_cons, List.filterMap_append, hErr, hAS, hFin, hCmp, hQ,
      errorMsgOf, allSourcesDataOf, finalAnswerOf, completeTotalOf, questionDataOf,
      idxFrom_length]

theorem C1_partial_failure_absorbed_witness :
    (event_generator cFirstFails).filterMap errorMsgOf = [] ∧
      (event_generator cFirstFails).filterMap allSourcesDataOf
        = [(((runSubs cFirstFails pTwo.sub_questions.length 1 pTwo.sub_questions).2.2).dedup,
            ((runSubs cFirstFails pTwo.sub_questions.length 1 pTwo.sub_questions).2.2).dedup.length)] ∧
      (event_generator cFirstFails).filterMap finalAnswerOf = ["final answer"] ∧
      (event_generator cFirstFails).filterMap completeTotalOf = [pTwo.sub_questions.length] ∧
      ((event_generator cFirstFails).filterMap questionDataOf).length
        = pTwo.sub_questions.length :=
  C1_partial_failure_absorbed cFirstFails pTwo rfl (by decide)
    ⟨0, by decide, "rate limited", rfl⟩ "final answer" rfl (by decide)

/-- C2 (amended): for a successful plan, the stream carries exactly one
question and one answer event per sub-question, indexed 1..N in plan
order, and one sources event for exactly those sub-questions whose source
lookup succeeded (so N sources events only when every lookup succeeds);
for a non-empty plan they all precede the single all_sources event. -/
theorem C2_per_subquestion_events (c : Collaborators) (p : ResearchPlan)
    (hplan : c.planOut = .ok p) :
    (event_generator c).filterMap questionDataOf
        = List.zipWith (fun i q => (i, q, p.sub_questions.length))
            (idxFrom 1 p.sub_questions.length) p.sub_questions ∧
      (event_generator c).filterMap answerIdxOf = idxFrom 1 p.sub_questions.length ∧
      (event_generator c).filterMap sourcesDataOf
        = (idxFrom 1 p.sub_questions.length).filterMap (lookupPair c) ∧
      (p.sub_questions ≠ [] →
        event_generator c =
          (Event.progress "Planning research strategy..." ::
            Event.plan p.sub_questions p.reasoning p.sub_questions.length ::
              (runSubs c p.sub_questions.length 1 p.sub_questions).1) ++
            Event.all_sources
                ((runSubs c p.sub_questions.length 1 p.sub_questions).2.2).dedup
                ((runSubs c p.sub_questions.length 1 p.sub_questions).2.2).dedup.length ::
              Event.progress "Synthesizing final answer..." ::
                synthesisEvents c p.sub_questions.length ∧
          ∀ e ∈ Event.progress "Synthesizing final answer..." ::
              synthesisEvents c p.sub_questions.length,
            questionDataOf e = none ∧ answerIdxOf e = none ∧ sourcesDataOf e = none) := by
  by_cases hq : p.sub_questions = []
  · have hdec := event_generator_plan_ok c p hplan
    rw [afterPlan_of_nil c p hq] at hdec
    rw [hdec, hq]
    refine ⟨?_, ?_, ?_, fun hne => absurd rfl hne⟩ <;>
      simp [questionDataOf, answerIdxOf, sourcesDataOf, idxFrom]
  · have hdec := event_generator_plan_ok c p hplan
    rw [afterPlan_of_ne_nil c p hq] at hdec
    have htail := synthesisEvents_projections c p.sub_questions.length
    have hq1 := runSubs_questionData c p.sub_questions.length p.sub_questions 1
    have ha1 := runSubs_answerIdx c p.sub_questions.length p.sub_questions 1
    have hs1 := runSubs_sourcesData c p.sub_questions.length p.sub_questions 1
    have hsynthQ :
        (synthesisEvents c p.sub_questions.length).filterMap questionDataOf = [] := by
      rw [List.filterMap_eq_nil_iff]; intro e he; exact (htail e he).1
    have hsynthA :
        (synthesisEvents c p.sub_questions.length).filterMap answerIdxOf = [] := by
      rw [List.filterMap_eq_nil_iff]; intro e he; exact (htail e he).2.1
    have hsynthS :
        (synthesisEvents c p.sub_questions.length).filterMap sourcesDataOf = [] := by
      rw [List.filterMap_eq_nil_iff]; intro e he; exact (htail e he).2.2.1
    refine ⟨?_, ?_, ?_, fun _ => ⟨?_, ?_⟩⟩
    · rw [hdec]
      simp [List.filterMap_cons, List.filterMap_append, questionDataOf, hq1, hsynthQ]
    · rw [hdec]
      simp [List.filterMap_cons, List.filterMap_append, answerIdxOf, ha1, hsynthA]
    · rw [hdec]
      simp [List.filterMap_cons, List.filterMap_append, sourcesDataOf, hs1, hsynthS]
    · rw [hdec]
      simp
    · intro e he
      rcases List.mem_cons.mp he with he | he
      · subst he; exact ⟨rfl, rfl, rfl⟩
      · exact ⟨(htail e he).1, (htail e he).2.1, (htail e he).2.2.1⟩

theorem C2_per_subquestion_events_witness :
    (event_generator cTwoOk).filterMap questionDataOf
        = List.zipWith (fun i q => (i, q, pTwo.sub_questions.length))
            (idxFrom 1 pTwo.sub_questions.length) pTwo.sub_questions ∧
      (event_generator cTwoOk).filterMap answerIdxOf
        = idxFrom 1 pTwo.sub_questions.length :=
  ⟨(C2_per_subquestion_events cTwoOk pTwo rfl).1,
   (C2_per_subquestion_events cTwoOk pTwo rfl).2.1⟩

/-- C2 counterexample: a run whose single sub-question's source lookup
raises emits one question and one answer event but zero sources events,
so "exactly N sources events" fails. -/
theorem C2_counterexample :
    cLookupFail.planOut = .ok pOne ∧ pOne.sub_questions.length = 1 ∧
      ((event_generator cLookupFail).map Event.typeName).count "sources" = 0 ∧
      ((event_generator cLookupFail).map Event.typeName).count "question" = 1 := by
  refine ⟨rfl, rfl, ?_, ?_⟩ <;> decide

/-- C4 (amended): the stream's unique all_sources event carries the
deduplicated all_links accumulator and its cardinality, and all_links is
the concatenation of the sources stored in the accumulated
SubQuestionResults. The claim's further identification with the union of
the links of previously emitted sources events fails when a source lookup
succeeded but the research call then raised. -/
theorem C4_all_sources_aggregate (c : Collaborators) (p : ResearchPlan)
    (hplan : c.planOut = .ok p) (hne : p.sub_questions ≠ []) :
    (event_generator c).filterMap allSourcesDataOf
        = [(((runSubs c p.sub_questions.length 1 p.sub_questions).2.2).dedup,
            ((runSubs c p.sub_questions.length 1 p.sub_questions).2.2).toFinset.card)] ∧
      (runSubs c p.sub_questions.length 1 p.sub_questions).2.2
        = ((runSubs c p.sub_questions.length 1 p.sub_questions).2.1).flatMap
            SubQuestionResult.sources ∧
      (((runSubs c p.sub_questions.length 1 p.sub_questions).2.2).dedup).toFinset
        = (((runSubs c p.sub_questions.length 1 p.sub_questions).2.1).flatMap
            SubQuestionResult.sources).toFinset := by
  have hdec := event_generator_plan_ok c p hplan
  rw [afterPlan_of_ne_nil c p hne] at hdec
  have htail := synthesisEvents_projections c p.sub_questions.length
  have hloop := runSubs_filterMap_nil allSourcesDataOf
    (fun e h => (loop_event_projections e h).1) c p.sub_questions.length 1 p.sub_questions
  have hsynth :
      (synthesisEvents c p.sub_questions.length).filterMap allSourcesDataOf = [] := by
    rw [List.filterMap_eq_nil_iff]; intro e he; exact (htail e he).2.2.2
  have hbind := runSubs_links_eq_results_bind c p.sub_questions.length p.sub_questions 1
  refine ⟨?_, hbind, ?_⟩
  · rw [hdec]
    simp [List.filterMap_cons, List.filterMap_append, allSourcesDataOf, hloop, hsynth,
      List.card_toFinset]
  · rw [← hbind]
    exact List.toFinset.ext (fun x => List.mem_dedup)

theorem C4_all_sources_aggregate_witness :
    (event_generator cTwoOk).filterMap allSourcesDataOf
        = [(((runSubs cTwoOk pTwo.sub_questions.length 1 pTwo.sub_questions).2.2).dedup,
            ((runSubs cTwoOk pTwo.sub_questions.length 1 pTwo.sub_questions).2.2).toFinset.card)] :=
  (C4_all_sources_aggregate cTwoOk pTwo rfl (by decide)).1

/-- C4 counterexample: one sub-question, lookup succeeding with one link,
research then raising: a sources event carries that link but the
all_sources event carries the empty set, so all_sources is not the union
of the links of the previously emitted sources events. -/
theorem C4_counterexample :
    (event_generator cResearchFail).filterMap sourcesDataOf = [(1, ["https://a"])] ∧
      (event_generator cResearchFail).filterMap allSourcesDataOf = [([], 0)] := by
  constructor <;> rfl

/-- C9: links of a failed sub-question never reach all_sources: the
all_sources event carries exactly the deduplicated concatenation, over the
1-based plan positions, of the lookup links of those sub-questions whose
full research call succeeded (a position whose research call raised
contributes nothing, even when its lookup succeeded), and each successful
sub-question's accumulator entry stores the lookup links while the link
list returned by the research call itself is discarded. -/
theorem C9_failed_research_links_discarded (c : Collaborators) (p : ResearchPlan)
    (hplan : c.planOut = .ok p) (hne : p.sub_questions ≠ [])
    (j : Nat) (hj : j < p.sub_questions.length) (L : List String) (er : String)
    (hlook : c.getSourcesOut (j + 1) = .ok L)
    (hres : c.researchOut (j + 1) = .error er) :
    (event_generator c).filterMap allSourcesDataOf
        = [(((idxFrom 1 p.sub_questions.length).flatMap (lookupLinksIfSuccess c)).dedup,
            ((idxFrom 1 p.sub_questions.length).flatMap
              (lookupLinksIfSuccess c)).dedup.length)] ∧
      lookupLinksIfSuccess c (j + 1) = [] ∧
      (runSubs c p.sub_questions.length 1 p.sub_questions).2.1
        = List.zipWith (fun i q => (stepSub c p.sub_questions.length i q).2.1)
            (idxFrom 1 p.sub_questions.length) p.sub_questions ∧
      ∀ i q a x m L', c.getSourcesOut i = .ok L' → c.researchOut i = .ok (a, x, m) →
        (stepSub c p.sub_questions.length i q).2.1
          = { index := none, question := q, answer := a, sources := L' } := by
  have hdec := event_generator_plan_ok c p hplan
  rw [afterPlan_of_ne_nil c p hne] at hdec
  have htail := synthesisEvents_projections c p.sub_questions.length
  have hloop := runSubs_filterMap_nil allSourcesDataOf
    (fun e h => (loop_event_projections e h).1) c p.sub_questions.length 1 p.sub_questions
  have hsynth :
      (synthesisEvents c p.sub_questions.length).filterMap allSourcesDataOf = [] := by
    rw [List.filterMap_eq_nil_iff]; intro e he; exact (htail e he).2.2.2
  have hlinks := runSubs_links c p.sub_questions.length p.sub_questions 1
  refine ⟨?_, ?_, runSubs_results c p.sub_questions.length p.sub_questions 1, ?_⟩
  · rw [hdec]
    simp [List.filterMap_cons, List.filterMap_append, allSourcesDataOf, hloop, hsynth,
      hlinks]
  · simp [lookupLinksIfSuccess, hres]
  · intro i q a x m L' h1 h2
    simp [stepSub, h1, h2]

theorem C9_failed_research_links_discarded_witness :
    (event_generator cFirstFails).filterMap allSourcesDataOf
        = [(((idxFrom 1 pTwo.sub_questions.length).flatMap
              (lookupLinksIfSuccess cFirstFails)).dedup,
            ((idxFrom 1 pTwo.sub_questions.length).flatMap
              (lookupLinksIfSuccess cFirstFails)).dedup.length)] ∧
      lookupLinksIfSuccess cFirstFails 1 = [] :=
  ⟨(C9_failed_research_links_discarded cFirstFails pTwo rfl (by decide) 0 (by decide)
      ["https://a"] "rate limited" rfl rfl).1,
   (C9_failed_research_links_discarded cFirstFails pTwo rfl (by decide) 0 (by decide)
      ["https://a"] "rate limited" rfl rfl).2.1⟩

/-- C8: on a fully successful two-sub-question run the stream's type
sequence is exactly progress, plan, question, sources, answer, question,
sources, answer, all_sources, progress, final, complete, with the plan
event's total and the complete event's total_sub_questions both 2. -/
theorem C8_happy_path_two_subquestions (c : Collaborators) (p : ResearchPlan)
    (q1 q2 : String) (hqs : p.sub_questions = [q1, q2])
    (hplan : c.planOut = .ok p)
    (l1 l2 : List String) (hg1 : c.getSourcesOut 1 = .ok l1)
    (hg2 : c.getSourcesOut 2 = .ok l2)
    (r1 r2 : String × String × List String)
    (hr1 : c.researchOut 1 = .ok r1) (hr2 : c.researchOut 2 = .ok r2)
    (s : String) (hs : c.synthOut = .ok s) (hs0 : s ≠ "") :
    (event_generator c).map Event.typeName
        = ["progress", "plan", "question", "sources", "answer",
           "question", "sources", "answer", "all_sources", "progress", "final",
           "complete"] ∧
      (event_generator c).filterMap planTotalOf = [2] ∧
      (event_generator c).filterMap completeTotalOf = [2] := by
  have hdec := event_generator_plan_ok c p hplan
  rw [hdec]
  simp only [afterPlan, hqs]
  refine ⟨?_, ?_, ?_⟩ <;>
    simp [runSubs, stepSub, hg1, hg2, hr1, hr2, synthesisEvents, hs, hs0,
      Event.typeName, planTotalOf, completeTotalOf, List.filterMap_cons,
      List.filterMap_append]

theorem C8_happy_path_two_subquestions_witness :
    (event_generator cTwoOk).map Event.typeName
        = ["progress", "plan", "question", "sources", "answer",
           "question", "sources", "answer", "all_sources", "progress", "final",
           "complete"] ∧
      (event_generator cTwoOk).filterMap planTotalOf = [2] ∧
      (event_generator cTwoOk).filterMap completeTotalOf = [2] :=
  C8_happy_path_two_subquestions cTwoOk pTwo "sq1" "sq2" rfl rfl
    ["https://a"] ["https://a"] rfl rfl ("ans", "ctx", ["https://r"])
    ("ans", "ctx", ["https://r"]) rfl rfl "final answer" rfl (by decide)

set_option maxRecDepth 40000 in
/-- C6 counterexample: a 1001-character query ending in a blank has a
trimmed length of 1000, within the claim's 1..1000 window, yet the code
rejects it, because pydantic checks the 1000-character bound on the raw
query before the validator trims it. -/
theorem C6_counterexample :
    research_stream cTwoOk badQuery = none ∧
      1 ≤ (pyStrip badQuery).length ∧ (pyStrip badQuery).length ≤ 1000 := by
  refine ⟨?_, ?_, ?_⟩
  · have h : ¬ queryAccepted badQuery := by decide
    simp [research_stream, h]
  · decide
  · decide

end DeepResearch
